import Mathlib

/-!
Shallow embedding of the spotify-mcp tool handlers (src/read.ts, src/write.ts,
and the player tools) and proofs of the specification's claims about them.

The remote dispatcher `handleSpotifyRequest` is external to the handlers: each
embedded handler takes the dispatch outcome as an `Except String α` parameter
(`.ok` = the API responded, `.error e` = the dispatch call threw an exception
whose message is `e`), and additionally reports the list of API requests it
issued, so that "the dispatcher is never invoked" is expressible as an empty
request list.

JavaScript truthiness of optional string arguments (`undefined` and `""` are
falsy) is modelled by `optTruthy`.
-/

/-- A content block of a tool result: a type tag, a text payload, and the
optional `isError` flag (only ever set by playMusic/addToQueue error blocks). -/
structure ContentBlock where
  type : String
  text : String
  isError : Bool
  deriving Repr, DecidableEq

/-- A tool handler's result envelope: the list of content blocks. -/
abbrev HandlerResult := List ContentBlock

/-- JS truthiness of an optional string argument: `undefined` and `""` are falsy. -/
def optTruthy : Option String → Bool
  | none => false
  | some s => !s.isEmpty

/-- JS string interpolation of a possibly-undefined value: `undefined` renders
as the string "undefined". -/
def jsShow : Option String → String
  | none => "undefined"
  | some s => s

/-- JS `Array.prototype.join(sep)`. -/
def joinWith (sep : String) : List String → String
  | [] => ""
  | x :: xs => xs.foldl (fun acc s => acc ++ sep ++ s) x

/-- JS `Array.prototype.map((x, i) => ...)`, with the start index explicit. -/
def jsMapIdx (f : Nat → α → String) : Nat → List α → List String
  | _, [] => []
  | i, x :: xs => f i x :: jsMapIdx f (i + 1) xs

/-- The API requests the handlers can issue through the dispatcher, one
constructor per Spotify SDK method used, carrying the arguments the handlers
pass. -/
inductive ApiRequest where
  | search (query : String) (types : List String) (limit offset : Int)
  | getCurrentlyPlayingTrack
  | startResumePlayback (device : String) (contextUri : Option String)
      (uris : Option (List String))
  | pausePlayback (device : String)
  | skipToNext (device : String)
  | skipToPrevious (device : String)
  | addItemToPlaybackQueue (uri : String) (device : String)
  | addItemsToPlaylist (playlistId : String) (uris : List String)
      (position : Option Int)
  | removeItemsFromPlaylist (playlistId : String) (uris : List String)
  | topItems (itemType : String) (time_range : String) (limit : Int)
  | currentUserPlaylists (limit : Int)
  | getPlaylistItems (playlistId : String) (limit : Int)
  | getRecentlyPlayedTracks (limit : Int)
  | followedArtists (after : Option String) (limit : Int)
  deriving Repr, DecidableEq

/-- The URI an `ApiRequest` transmits to the playback API, when it carries one:
either a context URI, a single-element track list, or a queued item. -/
def requestUri : ApiRequest → Option String
  | .startResumePlayback _ (some u) none => some u
  | .startResumePlayback _ none (some [u]) => some u
  | .addItemToPlaybackQueue u _ => some u
  | _ => none

/-! ## playMusic (player tools, second half of src/read.ts) -/

/-- Arguments of the `playMusic` tool; all four schema fields are optional. -/
structure PlayMusicArgs where
  uri : Option String
  type : Option String
  id : Option String
  deviceId : Option String
  deriving Repr, DecidableEq

/-- `let spotifyUri = uri; if (!spotifyUri && type && id) spotifyUri =
`spotify:${type}:${id}`;` — the effective URI after synthesis. -/
def playMusicEffectiveUri (args : PlayMusicArgs) : Option String :=
  if !(optTruthy args.uri) && optTruthy args.type && optTruthy args.id then
    some ("spotify:" ++ args.type.getD "" ++ ":" ++ args.id.getD "")
  else args.uri

/-- The `playMusic` handler. Returns the API requests issued and either the
result envelope (`.ok`) or the propagated dispatch exception (`.error`),
since this handler has no local try/catch around the dispatch. -/
def playMusic (args : PlayMusicArgs) (dispatch : Except String Unit) :
    List ApiRequest × Except String HandlerResult :=
  if !(optTruthy args.uri) && (!(optTruthy args.type) || !(optTruthy args.id)) then
    ([], .ok [⟨"text", "Error: Must provide either a URI or both a type and ID", true⟩])
  else
    let spotifyUri := playMusicEffectiveUri args
    let device := if optTruthy args.deviceId then args.deviceId.getD "" else ""
    let req : ApiRequest :=
      if !(optTruthy spotifyUri) then
        .startResumePlayback device none none
      else if args.type == some "track" then
        .startResumePlayback device none (some [spotifyUri.getD ""])
      else
        .startResumePlayback device (some (spotifyUri.getD "")) none
    match dispatch with
    | .error e => ([req], .error e)
    | .ok _ =>
      ([req], .ok [⟨"text",
        "Started playing " ++ (if optTruthy args.type then args.type.getD "" else "music")
          ++ " " ++ (if optTruthy args.id then "(ID: " ++ args.id.getD "" ++ ")" else ""),
        false⟩])

/-! ## formatDuration (src/utils.ts, not among the provided sources) -/

/-- JS `String.prototype.padStart(2, '0')`. -/
def padStart2Zero (s : String) : String :=
  String.mk (List.replicate (2 - s.length) (Char.ofNat 48)) ++ s

/-- Modelled from the spec: `formatDuration` is imported from `src/utils.ts`,
which is missing from the provided sources. The spec says: given a millisecond
count, produce `M:SS` with zero-padded seconds (e.g., 125000 ms → "2:05"). -/
def formatDuration (ms : Nat) : String :=
  toString (ms / 60000) ++ ":" ++ padStart2Zero (toString (ms % 60000 / 1000))

/-! ## addToQueue (src/write.ts) -/

/-- Arguments of the `addToQueue` tool; all four schema fields are optional. -/
structure QueueArgs where
  uri : Option String
  type : Option String
  id : Option String
  deviceId : Option String
  deriving Repr, DecidableEq

/-- The effective URI of `addToQueue`, computed before its error check with the
same synthesis rule as `playMusic`. -/
def addToQueueEffectiveUri (args : QueueArgs) : Option String :=
  if !(optTruthy args.uri) && optTruthy args.type && optTruthy args.id then
    some ("spotify:" ++ args.type.getD "" ++ ":" ++ args.id.getD "")
  else args.uri

/-- The `addToQueue` handler (no local try/catch around the dispatch). -/
def addToQueue (args : QueueArgs) (dispatch : Except String Unit) :
    List ApiRequest × Except String HandlerResult :=
  let spotifyUri := addToQueueEffectiveUri args
  if !(optTruthy spotifyUri) then
    ([], .ok [⟨"text", "Error: Must provide either a URI or both a type and ID", true⟩])
  else
    let req : ApiRequest :=
      .addItemToPlaybackQueue (spotifyUri.getD "")
        (if optTruthy args.deviceId then args.deviceId.getD "" else "")
    match dispatch with
    | .error e => ([req], .error e)
    | .ok _ =>
      ([req], .ok [⟨"text", "Added item " ++ jsShow spotifyUri ++ " to queue", false⟩])

/-! ## createPlaylist, addTracksToPlaylist, removeTracksFromPlaylist (src/write.ts) -/

/-- Arguments of `createPlaylist`. -/
structure CreatePlaylistArgs where
  name : String
  description : Option String
  isPublic : Option Bool
  deriving Repr, DecidableEq

/-- The `createPlaylist` handler (no local try/catch). The dispatch outcome
carries the created playlist id returned by the API. -/
def createPlaylist (args : CreatePlaylistArgs) (dispatch : Except String String) :
    Except String HandlerResult :=
  match dispatch with
  | .error e => .error e
  | .ok resultId =>
    .ok [⟨"text",
      "Successfully created playlist \"" ++ args.name ++ "\"\nPlaylist ID: " ++ resultId,
      false⟩]

/-- Arguments of `addTracksToPlaylist`. -/
structure AddTracksArgs where
  playlistId : String
  trackIds : List String
  position : Option Int
  deriving Repr, DecidableEq

/-- The `addTracksToPlaylist` handler; it catches dispatch exceptions locally. -/
def addTracksToPlaylist (args : AddTracksArgs) (dispatch : Except String Unit) :
    List ApiRequest × HandlerResult :=
  if args.trackIds.length = 0 then
    ([], [⟨"text", "Error: No track IDs provided", false⟩])
  else
    let trackUris := args.trackIds.map (fun id => "spotify:track:" ++ id)
    let req : ApiRequest := .addItemsToPlaylist args.playlistId trackUris args.position
    match dispatch with
    | .error e => ([req], [⟨"text", "Error adding tracks to playlist: " ++ e, false⟩])
    | .ok _ =>
      ([req], [⟨"text",
        "Successfully added " ++ toString args.trackIds.length ++ " track"
          ++ (if args.trackIds.length == 1 then "" else "s")
          ++ " to playlist (ID: " ++ args.playlistId ++ ")",
        false⟩])

/-- Arguments of `removeTracksFromPlaylist`. -/
structure RemoveTracksArgs where
  playlistId : String
  trackIds : List String
  deriving Repr, DecidableEq

/-- The `removeTracksFromPlaylist` handler; it catches dispatch exceptions
locally. The `{ uri }` objects the source builds are modelled by their `uri`
strings. -/
def removeTracksFromPlaylist (args : RemoveTracksArgs) (dispatch : Except String Unit) :
    List ApiRequest × HandlerResult :=
  if args.trackIds.length = 0 then
    ([], [⟨"text", "Error: No track IDs provided", false⟩])
  else
    let tracks := args.trackIds.map (fun id => "spotify:track:" ++ id)
    let req : ApiRequest := .removeItemsFromPlaylist args.playlistId tracks
    match dispatch with
    | .error e => ([req], [⟨"text", "Error removing tracks from playlist: " ++ e, false⟩])
    | .ok _ =>
      ([req], [⟨"text",
        "Successfully removed " ++ toString args.trackIds.length ++ " track"
          ++ (if args.trackIds.length == 1 then "" else "s")
          ++ " from playlist (ID: " ++ args.playlistId ++ ")",
        false⟩])

/-! ## searchSpotify (src/read.ts) -/

/-- A track object as rendered by the search/list formatters: its artists are
modelled by their names. -/
structure TrackResult where
  name : String
  id : String
  artists : List String
  duration_ms : Nat
  deriving Repr, DecidableEq

/-- An album object as rendered by the search formatter. -/
structure AlbumResult where
  name : String
  id : String
  artists : List String
  deriving Repr, DecidableEq

/-- A playlist object of a search response; every field access in the source
is null-guarded, so each field is optional. -/
structure PlaylistResult where
  name : Option String
  description : Option String
  ownerDisplayName : Option String
  id : Option String
  deriving Repr, DecidableEq

/-- The search response: one optional item array per query type (the SDK only
populates the array matching the requested type). A playlist entry itself may
be null. -/
structure SearchResults where
  tracks : Option (List TrackResult)
  albums : Option (List AlbumResult)
  playlists : Option (List (Option PlaylistResult))
  deriving Repr, DecidableEq

/-- Arguments of `searchSpotify`. -/
structure SearchArgs where
  query : String
  type : String
  limit : Option Int
  offset : Option Int
  deriving Repr, DecidableEq

/-- One line of track search output. -/
def searchTrackLine (i : Nat) (track : TrackResult) : String :=
  toString (i + 1) ++ ". "
    ++ ("\"" ++ track.name ++ "\" by " ++ joinWith ", " track.artists
      ++ " (" ++ formatDuration track.duration_ms ++ ") - ID: " ++ track.id)

/-- One line of album search output. -/
def searchAlbumLine (i : Nat) (album : AlbumResult) : String :=
  toString (i + 1) ++ ". "
    ++ ("\"" ++ album.name ++ "\" by " ++ joinWith ", " album.artists
      ++ " - ID: " ++ album.id)

/-- One line of playlist search output (null playlists render fallbacks, and
un-defaulted null fields render as "undefined", as JS interpolation does). -/
def searchPlaylistLine (i : Nat) (playlist : Option PlaylistResult) : String :=
  toString (i + 1) ++ ". "
    ++ ("\"" ++ ((playlist.bind PlaylistResult.name).getD "Unknown Playlist")
      ++ " (" ++ ((playlist.bind PlaylistResult.description).getD "No description")
      ++ " tracks)\" by " ++ jsShow (playlist.bind PlaylistResult.ownerDisplayName)
      ++ " - ID: " ++ jsShow (playlist.bind PlaylistResult.id))

/-- The `formattedResults` accumulator of `searchSpotify`: filled by the
branch matching the requested type when its item array is present, otherwise
left as the empty string. -/
def searchFormatted (ty : String) (results : SearchResults) : String :=
  if ty == "track" && results.tracks.isSome then
    joinWith "\n" (jsMapIdx searchTrackLine 0 (results.tracks.getD []))
  else if ty == "album" && results.albums.isSome then
    joinWith "\n" (jsMapIdx searchAlbumLine 0 (results.albums.getD []))
  else if ty == "playlist" && results.playlists.isSome then
    joinWith "\n" (jsMapIdx searchPlaylistLine 0 (results.playlists.getD []))
  else ""

/-- The `searchSpotify` handler; it catches dispatch exceptions locally and
applies the defaults `limit ?? 20` and `offset ?? 0`. -/
def searchSpotify (args : SearchArgs) (dispatch : Except String SearchResults) :
    List ApiRequest × HandlerResult :=
  let limitValue := args.limit.getD 20
  let offsetValue := args.offset.getD 0
  let req : ApiRequest := .search args.query [args.type] limitValue offsetValue
  match dispatch with
  | .error e =>
    ([req], [⟨"text", "Error searching for " ++ args.type ++ "s: " ++ e, false⟩])
  | .ok results =>
    let formattedResults := searchFormatted args.type results
    ([req], [⟨"text",
      if formattedResults.length > 0 then
        "# Search results for \"" ++ args.query ++ "\" (type: " ++ args.type ++ ")\n\n"
          ++ formattedResults
      else
        "No " ++ args.type ++ " results found for \"" ++ args.query ++ "\"",
      false⟩])

/-- The zod schema bounds of `searchSpotify` as declared in the source:
`limit` optional in [1,50], `offset` optional in [0,1000]. -/
def validSearchArgs (args : SearchArgs) : Bool :=
  (match args.limit with
   | none => true
   | some l => decide (1 ≤ l) && decide (l ≤ 50)) &&
  (match args.offset with
   | none => true
   | some o => decide (0 ≤ o) && decide (o ≤ 1000))

/-- Modelled from the spec: the transport validates the call arguments against
the tool schema before the handler runs ("validation failure must prevent the
handler from executing"), so an invalid call never reaches the handler and
never dispatches an API request. -/
def runSearchTool (args : SearchArgs) (dispatch : Except String SearchResults) :
    Option (List ApiRequest × HandlerResult) :=
  if validSearchArgs args then some (searchSpotify args dispatch) else none

/-! ## getNowPlaying and the list-style reads (src/read.ts) -/

/-- An item of a playback/playlist response as the `isTrack` guard sees it:
`artists` is absent when the item carries no artist array, `album` holds the
album name when the item has an album with a string name. -/
structure SpotifyItem where
  itemType : String
  name : String
  id : String
  duration_ms : Nat
  artists : Option (List String)
  album : Option String
  deriving Repr, DecidableEq

/-- The `isTrack` type guard: the item's type tag is "track", its artists
field is an array, and it has an album with a string name. -/
def isTrack (item : SpotifyItem) : Bool :=
  item.itemType == "track" && item.artists.isSome && item.album.isSome

/-- The currently-playing response body (when the API returns one). -/
structure CurrentlyPlaying where
  item : Option SpotifyItem
  progress_ms : Option Nat
  is_playing : Bool
  deriving Repr, DecidableEq

/-- The `getNowPlaying` handler; it catches dispatch exceptions locally. The
dispatch outcome is `none` when the API reports no current playback. -/
def getNowPlaying (dispatch : Except String (Option CurrentlyPlaying)) : HandlerResult :=
  match dispatch with
  | .error e => [⟨"text", "Error getting current track: " ++ e, false⟩]
  | .ok none => [⟨"text", "Nothing is currently playing on Spotify", false⟩]
  | .ok (some currentTrack) =>
    match currentTrack.item with
    | none => [⟨"text", "Nothing is currently playing on Spotify", false⟩]
    | some item =>
      if !(isTrack item) then
        [⟨"text", "Currently playing item is not a track (might be a podcast episode)", false⟩]
      else
        [⟨"text",
          "# Currently " ++ (if currentTrack.is_playing then "Playing" else "Paused")
            ++ "\n\n" ++ "**Track**: \"" ++ item.name ++ "\"\n"
            ++ "**Artist**: " ++ joinWith ", " (item.artists.getD []) ++ "\n"
            ++ "**Album**: " ++ (item.album.getD "") ++ "\n"
            ++ "**Progress**: " ++ formatDuration (currentTrack.progress_ms.getD 0)
            ++ " / " ++ formatDuration item.duration_ms ++ "\n"
            ++ "**ID**: " ++ item.id,
          false⟩]

/-- A playlist summary of the current user's playlist listing. -/
structure PlaylistSummary where
  name : String
  id : String
  tracksTotal : Option Nat
  deriving Repr, DecidableEq

/-- One line of `getUserPlaylists` output (`tracks?.total ? total : 0`). -/
def userPlaylistLine (i : Nat) (playlist : PlaylistSummary) : String :=
  toString (i + 1) ++ ". "
    ++ ("\"" ++ playlist.name ++ "\" ("
      ++ toString (playlist.tracksTotal.getD 0) ++ " tracks) - ID: " ++ playlist.id)

/-- The `getUserPlaylists` handler (no local try/catch). -/
def getUserPlaylists (limit : Option Int) (dispatch : Except String (List PlaylistSummary)) :
    List ApiRequest × Except String HandlerResult :=
  let req : ApiRequest := .currentUserPlaylists (limit.getD 50)
  match dispatch with
  | .error e => ([req], .error e)
  | .ok playlists =>
    if playlists.length = 0 then
      ([req], .ok [⟨"text", "You don\x27t have any playlists on Spotify", false⟩])
    else
      ([req], .ok [⟨"text",
        "# Your Spotify Playlists\n\n" ++ joinWith "\n" (jsMapIdx userPlaylistLine 0 playlists),
        false⟩])

/-- An entry of a playlist-items or play-history response: its `track` may be
null (a removed track). -/
structure TrackEntry where
  track : Option SpotifyItem
  deriving Repr, DecidableEq

/-- The playlist-items response; its `items` array itself may be absent. -/
structure PlaylistItemsResponse where
  items : Option (List TrackEntry)
  deriving Repr, DecidableEq

/-- One line of `getPlaylistTracks`/`getRecentlyPlayed` output: a removed
track renders a placeholder, a non-track item renders "Unknown item". -/
def trackEntryLine (i : Nat) (entry : TrackEntry) : String :=
  match entry.track with
  | none => toString (i + 1) ++ ". " ++ "[Removed track]"
  | some track =>
    if isTrack track then
      toString (i + 1) ++ ". "
        ++ ("\"" ++ track.name ++ "\" by "
          ++ joinWith ", " (track.artists.getD []) ++ " ("
          ++ formatDuration track.duration_ms ++ ") - ID: " ++ track.id)
    else
      toString (i + 1) ++ ". " ++ "Unknown item"

/-- The `getPlaylistTracks` handler (no local try/catch); the emptiness check
is `(items?.length ?? 0) === 0`. -/
def getPlaylistTracks (playlistId : String) (limit : Option Int)
    (dispatch : Except String PlaylistItemsResponse) :
    List ApiRequest × Except String HandlerResult :=
  let req : ApiRequest := .getPlaylistItems playlistId (limit.getD 50)
  match dispatch with
  | .error e => ([req], .error e)
  | .ok playlistTracks =>
    if ((playlistTracks.items.map List.length).getD 0) = 0 then
      ([req], .ok [⟨"text", "This playlist doesn\x27t have any tracks", false⟩])
    else
      ([req], .ok [⟨"text",
        "# Tracks in Playlist\n\n"
          ++ joinWith "\n" (jsMapIdx trackEntryLine 0 (playlistTracks.items.getD [])),
        false⟩])

/-- The `getRecentlyPlayed` handler (no local try/catch). -/
def getRecentlyPlayed (limit : Option Int) (dispatch : Except String (List TrackEntry)) :
    List ApiRequest × Except String HandlerResult :=
  let req : ApiRequest := .getRecentlyPlayedTracks (limit.getD 50)
  match dispatch with
  | .error e => ([req], .error e)
  | .ok history =>
    if history.length = 0 then
      ([req], .ok [⟨"text", "You don\x27t have any recently played tracks on Spotify", false⟩])
    else
      ([req], .ok [⟨"text",
        "# Recently Played Tracks\n\n" ++ joinWith "\n" (jsMapIdx trackEntryLine 0 history),
        false⟩])

/-- An artist of the followed-artists listing. -/
structure ArtistResult where
  name : String
  id : String
  deriving Repr, DecidableEq

/-- One line of `getFollowedArtists` output. -/
def followedArtistLine (i : Nat) (artist : ArtistResult) : String :=
  toString (i + 1) ++ ". " ++ ("\"" ++ artist.name ++ "\" - ID: " ++ artist.id)

/-- The `getFollowedArtists` handler (no local try/catch); the response's
`artists.artists.items` array is modelled directly. -/
def getFollowedArtists (after : Option String) (limit : Option Int)
    (dispatch : Except String (List ArtistResult)) :
    List ApiRequest × Except String HandlerResult :=
  let req : ApiRequest := .followedArtists after (limit.getD 50)
  match dispatch with
  | .error e => ([req], .error e)
  | .ok artists =>
    if artists.length = 0 then
      ([req], .ok [⟨"text", "User doesn\x27t follow any artists on Spotify", false⟩])
    else
      ([req], .ok [⟨"text",
        "# Artists You Follow\n\n" ++ joinWith "\n" (jsMapIdx followedArtistLine 0 artists),
        false⟩])

/-! ## getUserTopItems (src/read.ts) -/

/-- Arguments of `getUserTopItems`; `offset` is declared by the schema but
never read by the handler. -/
structure TopItemsArgs where
  type : String
  time_range : String
  limit : Option Int
  offset : Option Int
  deriving Repr, DecidableEq

/-- A top item: artists are present exactly when the object carries an artist
array (`'artists' in item && Array.isArray(item.artists)`). -/
structure TopItem where
  name : String
  id : String
  artists : Option (List String)
  deriving Repr, DecidableEq

/-- One line of `getUserTopItems` output (the `else` branch is the source's
fallback for type safety). -/
def topItemLine (ty : String) (i : Nat) (item : TopItem) : String :=
  if ty == "artists" then
    toString (i + 1) ++ ". " ++ ("\"" ++ item.name ++ "\" - ID: " ++ item.id)
  else if ty == "tracks" && item.artists.isSome then
    toString (i + 1) ++ ". "
      ++ ("\"" ++ item.name ++ "\" by "
        ++ joinWith ", " (item.artists.getD []) ++ " - ID: " ++ item.id)
  else
    toString (i + 1) ++ ". " ++ ("\"" ++ item.name ++ "\" - ID: " ++ item.id)

/-- The `getUserTopItems` handler (no local try/catch); it destructures only
`type`, `time_range` and `limit` from its arguments. -/
def getUserTopItems (args : TopItemsArgs) (dispatch : Except String (List TopItem)) :
    List ApiRequest × Except String HandlerResult :=
  let req : ApiRequest := .topItems args.type args.time_range (args.limit.getD 50)
  match dispatch with
  | .error e => ([req], .error e)
  | .ok topItems =>
    if topItems.length = 0 then
      ([req], .ok [⟨"text", "User doesn\x27t have any top " ++ args.type ++ " on Spotify", false⟩])
    else
      ([req], .ok [⟨"text",
        "# Top " ++ args.type ++ "\n\n"
          ++ joinWith "\n" (jsMapIdx (topItemLine args.type) 0 topItems),
        false⟩])

/-! ## playbackAction (player tools, second half of src/read.ts) -/

/-- The `playbackAction` handler (no local try/catch): one API call per
action, and a success message assigned in the matching switch case (left as
the initial empty string by the switch's missing default case). -/
def playbackAction (action : String) (deviceId : Option String)
    (dispatch : Except String Unit) : List ApiRequest × Except String HandlerResult :=
  let device := if optTruthy deviceId then deviceId.getD "" else ""
  let reqs : List ApiRequest :=
    match action with
    | "pause" => [.pausePlayback device]
    | "resume" => [.startResumePlayback device none none]
    | "skipToNext" => [.skipToNext device]
    | "skipToPrevious" => [.skipToPrevious device]
    | _ => []
  match dispatch with
  | .error e => (reqs, .error e)
  | .ok _ =>
    let successMessage :=
      match action with
      | "pause" => "Playback paused"
      | "resume" => "Playback resumed"
      | "skipToNext" => "Skipped to next track"
      | "skipToPrevious" => "Skipped to previous track"
      | _ => ""
    (reqs, .ok [⟨"text", successMessage, false⟩])

/-- The result envelope contains exactly one content block and its type tag
is "text". -/
def isSingleTextBlock : HandlerResult → Bool
  | [b] => b.type == "text"
  | _ => false

/-- For handlers that may propagate a dispatch exception: every returned
(non-thrown) envelope is a single text block. -/
def okSingleText : Except String HandlerResult → Bool
  | .ok r => isSingleTextBlock r
  | .error _ => true

/-! ## Helper lemmas -/

theorem jsMapIdx_length (f : Nat → α → String) (k : Nat) (l : List α) :
    (jsMapIdx f k l).length = l.length := by
  induction l generalizing k with
  | nil => rfl
  | cons x xs ih => simp [jsMapIdx, ih]

theorem joinWith_foldl_length (sep : String) (xs : List String) (acc : String) :
    acc.length ≤ (xs.foldl (fun a s => a ++ sep ++ s) acc).length := by
  induction xs generalizing acc with
  | nil => simp
  | cons x xs ih =>
    refine le_trans ?_ (ih (acc ++ sep ++ x))
    simp [String.length_append]
    omega

theorem joinWith_cons_length (sep x : String) (xs : List String) :
    x.length ≤ (joinWith sep (x :: xs)).length :=
  joinWith_foldl_length sep xs x

theorem joinWith_line_pos (f : Nat → α → String)
    (hf : ∀ i y, 0 < (f i y).length) (x : α) (xs : List α) :
    0 < (joinWith "\n" (jsMapIdx f 0 (x :: xs))).length :=
  lt_of_lt_of_le (hf 0 x) (joinWith_cons_length "\n" _ _)

theorem searchTrackLine_length_pos (i : Nat) (t : TrackResult) :
    0 < (searchTrackLine i t).length := by
  have h2 : (". " : String).length = 2 := rfl
  simp [searchTrackLine, String.length_append, h2]

theorem searchAlbumLine_length_pos (i : Nat) (a : AlbumResult) :
    0 < (searchAlbumLine i a).length := by
  have h2 : (". " : String).length = 2 := rfl
  simp [searchAlbumLine, String.length_append, h2]

theorem searchPlaylistLine_length_pos (i : Nat) (p : Option PlaylistResult) :
    0 < (searchPlaylistLine i p).length := by
  have h2 : (". " : String).length = 2 := rfl
  simp [searchPlaylistLine, String.length_append, h2]

theorem isEmpty_false_of_ne (s : String) (h : s ≠ "") : s.isEmpty = false := by
  rcases he : s.isEmpty with _ | _
  · rfl
  · exact absurd ((String.isEmpty_iff s).mp he) h

theorem optTruthy_some_of_ne (s : String) (h : s ≠ "") : optTruthy (some s) = true := by
  simp [optTruthy, isEmpty_false_of_ne s h]

theorem spotify_uri_ne_empty (t i : String) : ("spotify:" ++ t ++ ":" ++ i) ≠ "" := by
  intro h
  have hlen := congrArg String.length h
  have l1 : ("spotify:" : String).length = 8 := rfl
  have l2 : (":" : String).length = 1 := rfl
  have l0 : ("" : String).length = 0 := rfl
  rw [String.length_append, String.length_append, String.length_append, l1, l2, l0] at hlen
  omega

/-! ## Claim theorems -/

/-- C4: for every millisecond count d ≥ 0 the duration formatter produces
`M:SS` (minutes `d / 60000`, seconds `d % 60000 / 1000 < 60`, zero-padded to
exactly two characters), 125000 ms yields "2:05", and the inverse computation
minutes*60000 + seconds*1000 reconstructs d rounded down to the nearest
second. -/
theorem formatDuration_format_and_roundtrip :
    (∀ d : Nat,
      formatDuration d
          = toString (d / 60000) ++ ":" ++ padStart2Zero (toString (d % 60000 / 1000))
        ∧ d % 60000 / 1000 < 60
        ∧ (padStart2Zero (toString (d % 60000 / 1000))).length = 2
        ∧ (d / 60000) * 60000 + (d % 60000 / 1000) * 1000 = d / 1000 * 1000)
    ∧ formatDuration 125000 = "2:05" := by
  have hpad : ∀ s : Nat, s < 60 → (padStart2Zero (toString s)).length = 2 := by decide
  refine ⟨fun d => ⟨rfl, by omega, hpad _ (by omega), by omega⟩, by decide⟩

/-- C10: the `getUserTopItems` handler never reads the `offset` argument its
schema accepts: two invocations differing only in `offset` issue the same API
request and produce the same output, for every dispatch outcome. -/
theorem getUserTopItems_offset_irrelevant
    (ty time_range : String) (limit o₁ o₂ : Option Int)
    (d : Except String (List TopItem)) :
    getUserTopItems ⟨ty, time_range, limit, o₁⟩ d
      = getUserTopItems ⟨ty, time_range, limit, o₂⟩ d := rfl

/-- C1 counterexample: the empty string is a supplied `uri`, yet
`playMusic({uri: ""})` returns the error content block and never invokes the
API (JS truthiness: `!uri` is true for `""`), contradicting "if a uri is
supplied, the API is invoked with exactly that uri". -/
theorem playMusic_supplied_uri_counterexample :
    (playMusic ⟨some "", none, none, none⟩ (.ok ())).1 = []
    ∧ (playMusic ⟨some "", none, none, none⟩ (.ok ())).2
        = .ok [⟨"text", "Error: Must provide either a URI or both a type and ID", true⟩] :=
  ⟨rfl, rfl⟩

/-- C1 (amended): with "supplied" read as "supplied and non-empty" (JS
truthiness), for both `playMusic` and `addToQueue`: if neither a non-empty
uri nor a complete (type, id) pair with non-empty components is supplied, the
handler returns the error content block and issues no API request; if a
non-empty uri is supplied, the API request carries exactly that uri; if no
non-empty uri is supplied but non-empty type and id are, the API request
carries the synthesized URI `spotify:<type>:<id>`. -/
theorem playMusic_addToQueue_uri_synthesis
    (uri ty id dev : Option String) (d : Except String Unit) :
    (optTruthy uri = false → (optTruthy ty = false ∨ optTruthy id = false) →
      playMusic ⟨uri, ty, id, dev⟩ d
        = ([], .ok [⟨"text", "Error: Must provide either a URI or both a type and ID", true⟩])
      ∧ addToQueue ⟨uri, ty, id, dev⟩ d
        = ([], .ok [⟨"text", "Error: Must provide either a URI or both a type and ID", true⟩]))
    ∧ (∀ u, uri = some u → u ≠ "" →
      (playMusic ⟨uri, ty, id, dev⟩ d).1.map requestUri = [some u]
      ∧ (addToQueue ⟨uri, ty, id, dev⟩ d).1.map requestUri = [some u])
    ∧ (optTruthy uri = false → ∀ t i, ty = some t → id = some i → t ≠ "" → i ≠ "" →
      (playMusic ⟨uri, ty, id, dev⟩ d).1.map requestUri
          = [some ("spotify:" ++ t ++ ":" ++ i)]
      ∧ (addToQueue ⟨uri, ty, id, dev⟩ d).1.map requestUri
          = [some ("spotify:" ++ t ++ ":" ++ i)]) := by
  refine ⟨?_, ?_, ?_⟩
  · intro hu hti
    constructor
    · simp [playMusic, hu]
      rcases hti with h | h <;> simp [h]
    · have : optTruthy (addToQueueEffectiveUri ⟨uri, ty, id, dev⟩) = false := by
        simp [addToQueueEffectiveUri, hu]
        rcases hti with h | h <;> simp [h, hu]
      simp [addToQueue, this]
  · intro u hup hne
    subst hup
    have hie : u.isEmpty = false := by
      rcases h : u.isEmpty with _ | _
      · rfl
      · exact absurd ((String.isEmpty_iff u).mp h) hne
    have htr : optTruthy (some u) = true := by simp [optTruthy, hie]
    constructor
    · have heff : playMusicEffectiveUri ⟨some u, ty, id, dev⟩ = some u := by
        simp [playMusicEffectiveUri, htr]
      simp only [playMusic, htr, heff]
      rcases d with e | _ <;>
        by_cases ht : ty == some "track" <;>
          simp [ht, htr, requestUri]
    · have heff : addToQueueEffectiveUri ⟨some u, ty, id, dev⟩ = some u := by
        simp [addToQueueEffectiveUri, htr]
      simp only [addToQueue, heff, htr]
      rcases d with e | _ <;> simp [requestUri]
  · intro hu t i htp hip htne hine
    subst htp; subst hip
    have hit : t.isEmpty = false := by
      rcases h : t.isEmpty with _ | _
      · rfl
      · exact absurd ((String.isEmpty_iff t).mp h) htne
    have hii : i.isEmpty = false := by
      rcases h : i.isEmpty with _ | _
      · rfl
      · exact absurd ((String.isEmpty_iff i).mp h) hine
    have htt : optTruthy (some t) = true := by simp [optTruthy, hit]
    have hti : optTruthy (some i) = true := by simp [optTruthy, hii]
    have hsynne : optTruthy (some ("spotify:" ++ t ++ ":" ++ i)) = true :=
      optTruthy_some_of_ne _ (spotify_uri_ne_empty t i)
    constructor
    · have heff : playMusicEffectiveUri ⟨uri, some t, some i, dev⟩
          = some ("spotify:" ++ t ++ ":" ++ i) := by
        simp [playMusicEffectiveUri, hu, htt, hti]
      simp only [playMusic, hu, htt, hti, heff]
      rcases d with e | _ <;>
        by_cases ht : (some t : Option String) == some "track" <;>
          simp [ht, hsynne, requestUri]
    · have heff : addToQueueEffectiveUri ⟨uri, some t, some i, dev⟩
          = some ("spotify:" ++ t ++ ":" ++ i) := by
        simp [addToQueueEffectiveUri, hu, htt, hti]
      simp only [addToQueue, heff, hsynne]
      rcases d with e | _ <;> simp [requestUri]

/-- C1 witness: at uri = none, type = "album", id = "a1" the synthesized-URI
clause of the amended claim applies. -/
theorem playMusic_addToQueue_uri_synthesis_witness :
    (playMusic ⟨none, some "album", some "a1", none⟩ (.ok ())).1.map requestUri
      = [some ("spotify:" ++ "album" ++ ":" ++ "a1")]
    ∧ (addToQueue ⟨none, some "album", some "a1", none⟩ (.ok ())).1.map requestUri
      = [some ("spotify:" ++ "album" ++ ":" ++ "a1")] :=
  (playMusic_addToQueue_uri_synthesis none (some "album") (some "a1") none
    (.ok ())).2.2 rfl "album" "a1" rfl rfl (by decide) (by decide)

/-- C2 counterexample: `playMusic({uri: "spotify:track:t1"})` reaches the API
with a URI that refers to a track, yet the playback-start call receives it as
the context URI (second argument), not as a track list: the branch tests the
`type` argument, which is absent here. -/
theorem playMusic_track_uri_counterexample :
    (playMusic ⟨some "spotify:track:t1", none, none, none⟩ (.ok ())).1
      = [.startResumePlayback "" (some "spotify:track:t1") none] := rfl

/-- C2 (amended): for every `playMusic` invocation that reaches the API, the
playback-start call receives the effective URI as a single-element track list
(third argument) exactly when the `type` argument equals "track", and as the
context URI (second argument) otherwise; in particular
`playMusic({type:"track", id:"t1"})` dispatches playback-start with the track
list ["spotify:track:t1"]. -/
theorem playMusic_dispatch_branch_by_type
    (args : PlayMusicArgs) (d : Except String Unit)
    (h : optTruthy args.uri = true ∨ (optTruthy args.type = true ∧ optTruthy args.id = true)) :
    (args.type = some "track" →
      (playMusic args d).1
        = [.startResumePlayback (if optTruthy args.deviceId then args.deviceId.getD "" else "")
            none (some [(playMusicEffectiveUri args).getD ""])])
    ∧ (args.type ≠ some "track" →
      (playMusic args d).1
        = [.startResumePlayback (if optTruthy args.deviceId then args.deviceId.getD "" else "")
            (some ((playMusicEffectiveUri args).getD "")) none])
    ∧ (playMusic ⟨none, some "track", some "t1", none⟩ (.ok ())).1
        = [.startResumePlayback "" none (some ["spotify:track:t1"])] := by
  have hcond : (!(optTruthy args.uri)
      && (!(optTruthy args.type) || !(optTruthy args.id))) = false := by
    rcases h with h | ⟨h1, h2⟩
    · simp [h]
    · simp [h1, h2]
  have heff : optTruthy (playMusicEffectiveUri args) = true := by
    unfold playMusicEffectiveUri
    by_cases hc : (!(optTruthy args.uri) && optTruthy args.type && optTruthy args.id) = true
    · rw [if_pos hc]
      exact optTruthy_some_of_ne _ (spotify_uri_ne_empty _ _)
    · rw [if_neg hc]
      rcases h with h | ⟨h1, h2⟩
      · exact h
      · by_cases hu : optTruthy args.uri = true
        · exact hu
        · have hu2 : optTruthy args.uri = false := by
            simpa using hu
          exact absurd (by simp [hu2, h1, h2]) hc
  refine ⟨?_, ?_, rfl⟩
  · intro htype
    have hbeq : (args.type == some "track") = true := by simp [htype]
    rcases d with e | _ <;> simp [playMusic, hcond, heff, hbeq]
  · intro htype
    have hbeq : (args.type == some "track") = false := by simp [htype]
    rcases d with e | _ <;> simp [playMusic, hcond, heff, hbeq]

/-- C2 witness: the scenario input `{type:"track", id:"t1"}` discharges the
hypothesis and the track-list clause. -/
theorem playMusic_dispatch_branch_by_type_witness :
    (playMusic ⟨none, some "track", some "t1", none⟩ (.ok ())).1
      = [.startResumePlayback "" none (some [(playMusicEffectiveUri
          ⟨none, some "track", some "t1", none⟩).getD ""])] :=
  (playMusic_dispatch_branch_by_type ⟨none, some "track", some "t1", none⟩ (.ok ())
    (.inr ⟨rfl, rfl⟩)).1 rfl

/-- C3: for `addTracksToPlaylist` and `removeTracksFromPlaylist`, an empty
trackIds list returns the "No track IDs provided" message without dispatching;
a non-empty list dispatches the URIs `spotify:track:<id>` in the original
order, and the success text pluralizes "track" exactly when the count differs
from 1; the (P1, [t1, t2]) scenario dispatches both URIs and reports
"Successfully added 2 tracks to playlist (ID: P1)". -/
theorem playlist_track_ops_uris_and_pluralization
    (pid : String) (ids : List String) (pos : Option Int) (d : Except String Unit) :
    (ids = [] →
      addTracksToPlaylist ⟨pid, ids, pos⟩ d
        = ([], [⟨"text", "Error: No track IDs provided", false⟩])
      ∧ removeTracksFromPlaylist ⟨pid, ids⟩ d
        = ([], [⟨"text", "Error: No track IDs provided", false⟩]))
    ∧ (ids ≠ [] →
      (addTracksToPlaylist ⟨pid, ids, pos⟩ d).1
        = [.addItemsToPlaylist pid (ids.map (fun i => "spotify:track:" ++ i)) pos]
      ∧ (removeTracksFromPlaylist ⟨pid, ids⟩ d).1
        = [.removeItemsFromPlaylist pid (ids.map (fun i => "spotify:track:" ++ i))]
      ∧ (addTracksToPlaylist ⟨pid, ids, pos⟩ (.ok ())).2
        = [⟨"text", "Successfully added " ++ toString ids.length ++ " track"
            ++ (if ids.length == 1 then "" else "s")
            ++ " to playlist (ID: " ++ pid ++ ")", false⟩]
      ∧ (removeTracksFromPlaylist ⟨pid, ids⟩ (.ok ())).2
        = [⟨"text", "Successfully removed " ++ toString ids.length ++ " track"
            ++ (if ids.length == 1 then "" else "s")
            ++ " from playlist (ID: " ++ pid ++ ")", false⟩])
    ∧ ((addTracksToPlaylist ⟨"P1", ["t1", "t2"], none⟩ (.ok ())).1
        = [.addItemsToPlaylist "P1" ["spotify:track:t1", "spotify:track:t2"] none]
      ∧ (addTracksToPlaylist ⟨"P1", ["t1", "t2"], none⟩ (.ok ())).2
        = [⟨"text", "Successfully added 2 tracks to playlist (ID: P1)", false⟩]) := by
  refine ⟨?_, ?_, rfl, rfl⟩
  · intro h
    subst h
    exact ⟨rfl, rfl⟩
  · intro h
    have hl : ¬ (ids.length = 0) := by simp [List.length_eq_zero, h]
    refine ⟨?_, ?_, ?_, ?_⟩
    · rcases d with e | u <;> simp [addTracksToPlaylist, hl]
    · rcases d with e | u <;> simp [removeTracksFromPlaylist, hl]
    · simp [addTracksToPlaylist, hl]
    · simp [removeTracksFromPlaylist, hl]

/-- C3 witness: empty and two-element lists exercise both clauses. -/
theorem playlist_track_ops_uris_and_pluralization_witness :
    (addTracksToPlaylist ⟨"P1", [], none⟩ (.ok ())
        = ([], [⟨"text", "Error: No track IDs provided", false⟩]))
    ∧ (addTracksToPlaylist ⟨"P1", ["t1", "t2"], none⟩ (.ok ())).1
        = [.addItemsToPlaylist "P1" (["t1", "t2"].map (fun i => "spotify:track:" ++ i)) none] :=
  ⟨((playlist_track_ops_uris_and_pluralization "P1" [] none (.ok ())).1 rfl).1,
   ((playlist_track_ops_uris_and_pluralization "P1" ["t1", "t2"] none
      (.ok ())).2.1 (by decide)).1⟩

/-- C5: a `searchSpotify` limit outside [1,50] or offset outside [0,1000]
fails schema validation, so the handler never runs and no API request is
dispatched; when limit and offset are omitted, the dispatched request uses
the defaults 20 and 0. -/
theorem searchSpotify_schema_bounds_and_defaults
    (q ty : String) (lim off : Option Int) (d : Except String SearchResults) :
    ((∃ l, lim = some l ∧ (l < 1 ∨ 50 < l)) ∨ (∃ o, off = some o ∧ (o < 0 ∨ 1000 < o)) →
      runSearchTool ⟨q, ty, lim, off⟩ d = none)
    ∧ (runSearchTool ⟨q, ty, none, none⟩ d).map (fun r => r.1)
        = some [.search q [ty] 20 0] := by
  constructor
  · intro h
    have hv : validSearchArgs ⟨q, ty, lim, off⟩ = false := by
      rcases h with ⟨l, hl, hb⟩ | ⟨o, ho, hb⟩
      · subst hl
        rcases hb with hb | hb
        · have h1 : ¬ (1 ≤ l) := by omega
          simp [validSearchArgs, h1]
        · have h1 : ¬ (l ≤ 50) := by omega
          simp [validSearchArgs, h1]
      · subst ho
        rcases hb with hb | hb
        · have h1 : ¬ (0 ≤ o) := by omega
          rcases lim with _ | l <;> simp [validSearchArgs, h1]
        · have h1 : ¬ (o ≤ 1000) := by omega
          rcases lim with _ | l <;> simp [validSearchArgs, h1]
    simp [runSearchTool, hv]
  · rcases d with e | r <;> simp [runSearchTool, validSearchArgs, searchSpotify]

/-- C5 witness: limit 100 is rejected before dispatch; omitted bounds
dispatch with limit 20 and offset 0. -/
theorem searchSpotify_schema_bounds_and_defaults_witness :
    runSearchTool ⟨"queen", "track", some 100, none⟩ (.ok ⟨none, none, none⟩) = none
    ∧ (runSearchTool ⟨"queen", "track", none, none⟩
        (.ok ⟨none, none, none⟩)).map (fun r => r.1)
      = some [.search "queen" ["track"] 20 0] :=
  ⟨(searchSpotify_schema_bounds_and_defaults "queen" "track" (some 100) none
      (.ok ⟨none, none, none⟩)).1 (.inl ⟨100, rfl, .inr (by norm_num)⟩),
   (searchSpotify_schema_bounds_and_defaults "queen" "track" none none
      (.ok ⟨none, none, none⟩)).2⟩

/-- C7: `getNowPlaying` returns exactly "Nothing is currently playing on
Spotify" when the API reports no playback or no item; a specific explanatory
message when the current item is not a track; and otherwise reports the
playing/paused state, track name, artists, album, elapsed and total duration,
and the track id. -/
theorem getNowPlaying_output_cases (ct : CurrentlyPlaying) :
    getNowPlaying (.ok none)
        = [⟨"text", "Nothing is currently playing on Spotify", false⟩]
    ∧ (ct.item = none →
        getNowPlaying (.ok (some ct))
          = [⟨"text", "Nothing is currently playing on Spotify", false⟩])
    ∧ (∀ item, ct.item = some item → isTrack item = false →
        getNowPlaying (.ok (some ct))
          = [⟨"text",
              "Currently playing item is not a track (might be a podcast episode)",
              false⟩])
    ∧ (∀ item, ct.item = some item → isTrack item = true →
        getNowPlaying (.ok (some ct))
          = [⟨"text",
              "# Currently " ++ (if ct.is_playing then "Playing" else "Paused")
                ++ "\n\n" ++ "**Track**: \"" ++ item.name ++ "\"\n"
                ++ "**Artist**: " ++ joinWith ", " (item.artists.getD []) ++ "\n"
                ++ "**Album**: " ++ (item.album.getD "") ++ "\n"
                ++ "**Progress**: " ++ formatDuration (ct.progress_ms.getD 0)
                ++ " / " ++ formatDuration item.duration_ms ++ "\n"
                ++ "**ID**: " ++ item.id,
              false⟩]) := by
  refine ⟨rfl, ?_, ?_, ?_⟩
  · intro h
    simp [getNowPlaying, h]
  · intro item hi ht
    simp [getNowPlaying, hi, ht]
  · intro item hi ht
    simp [getNowPlaying, hi, ht]

/-- C7 witness: a playback object with no item, and one whose item is a
podcast episode. -/
theorem getNowPlaying_output_cases_witness :
    getNowPlaying (.ok (some ⟨none, none, false⟩))
      = [⟨"text", "Nothing is currently playing on Spotify", false⟩]
    ∧ getNowPlaying (.ok (some ⟨some ⟨"episode", "Ep", "e1", 100, none, none⟩, some 5, true⟩))
      = [⟨"text",
          "Currently playing item is not a track (might be a podcast episode)", false⟩] :=
  ⟨(getNowPlaying_output_cases ⟨none, none, false⟩).2.1 rfl,
   (getNowPlaying_output_cases
      ⟨some ⟨"episode", "Ep", "e1", 100, none, none⟩, some 5, true⟩).2.2.1
      ⟨"episode", "Ep", "e1", 100, none, none⟩ rfl (by decide)⟩

/-- C8: the handlers with a local catch (searchSpotify, getNowPlaying,
addTracksToPlaylist, removeTracksFromPlaylist) turn every dispatch exception
into a text block prefixed "Error <doing something>: " followed by the
exception message; the handlers without a local catch propagate the dispatch
exception unchanged. -/
theorem handlers_error_catching (e : String) :
    (∀ args : SearchArgs, (searchSpotify args (.error e)).2
        = [⟨"text", "Error searching for " ++ args.type ++ "s: " ++ e, false⟩])
    ∧ getNowPlaying (.error e)
        = [⟨"text", "Error getting current track: " ++ e, false⟩]
    ∧ (∀ args : AddTracksArgs, args.trackIds ≠ [] →
        (addTracksToPlaylist args (.error e)).2
          = [⟨"text", "Error adding tracks to playlist: " ++ e, false⟩])
    ∧ (∀ args : RemoveTracksArgs, args.trackIds ≠ [] →
        (removeTracksFromPlaylist args (.error e)).2
          = [⟨"text", "Error removing tracks from playlist: " ++ e, false⟩])
    ∧ (∀ args : PlayMusicArgs,
        optTruthy args.uri = true ∨ (optTruthy args.type = true ∧ optTruthy args.id = true) →
        (playMusic args (.error e)).2 = .error e)
    ∧ (∀ args : QueueArgs, optTruthy (addToQueueEffectiveUri args) = true →
        (addToQueue args (.error e)).2 = .error e)
    ∧ (∀ action dev, (playbackAction action dev (.error e)).2 = .error e)
    ∧ (∀ args : CreatePlaylistArgs, createPlaylist args (.error e) = .error e)
    ∧ (∀ lim, (getUserPlaylists lim (.error e)).2 = .error e)
    ∧ (∀ pid lim, (getPlaylistTracks pid lim (.error e)).2 = .error e)
    ∧ (∀ lim, (getRecentlyPlayed lim (.error e)).2 = .error e)
    ∧ (∀ aft lim, (getFollowedArtists aft lim (.error e)).2 = .error e)
    ∧ (∀ args : TopItemsArgs, (getUserTopItems args (.error e)).2 = .error e) := by
  refine ⟨fun args => rfl, rfl, ?_, ?_, ?_, ?_, fun action dev => rfl,
    fun args => rfl, fun lim => rfl, fun pid lim => rfl, fun lim => rfl,
    fun aft lim => rfl, fun args => rfl⟩
  · intro args h
    have hl : ¬ (args.trackIds.length = 0) := by simp [List.length_eq_zero, h]
    simp [addTracksToPlaylist, hl]
  · intro args h
    have hl : ¬ (args.trackIds.length = 0) := by simp [List.length_eq_zero, h]
    simp [removeTracksFromPlaylist, hl]
  · intro args h
    have hcond : (!(optTruthy args.uri)
        && (!(optTruthy args.type) || !(optTruthy args.id))) = false := by
      rcases h with h | ⟨h1, h2⟩
      · simp [h]
      · simp [h1, h2]
    simp [playMusic, hcond]
  · intro args h
    simp [addToQueue, h]

/-- C8 witness: a concrete exception message through a catching and a
non-catching handler. -/
theorem handlers_error_catching_witness :
    (searchSpotify ⟨"q", "track", none, none⟩ (.error "boom")).2
      = [⟨"text", "Error searching for " ++ "track" ++ "s: " ++ "boom", false⟩]
    ∧ (addTracksToPlaylist ⟨"P1", ["t1"], none⟩ (.error "boom")).2
      = [⟨"text", "Error adding tracks to playlist: " ++ "boom", false⟩]
    ∧ (getUserPlaylists none (.error "boom")).2 = .error "boom" :=
  ⟨(handlers_error_catching "boom").1 ⟨"q", "track", none, none⟩,
   (handlers_error_catching "boom").2.2.1 ⟨"P1", ["t1"], none⟩ (by decide),
   (handlers_error_catching "boom").2.2.2.2.2.2.2.2.1 none⟩

/-- C9: every tool handler, on every input on which it returns rather than
throws, returns exactly one content block, and that block's type tag is
"text". -/
theorem handlers_single_text_block :
    (∀ (args : SearchArgs) d, isSingleTextBlock (searchSpotify args d).2 = true)
    ∧ (∀ d, isSingleTextBlock (getNowPlaying d) = true)
    ∧ (∀ (args : AddTracksArgs) d, isSingleTextBlock (addTracksToPlaylist args d).2 = true)
    ∧ (∀ (args : RemoveTracksArgs) d,
        isSingleTextBlock (removeTracksFromPlaylist args d).2 = true)
    ∧ (∀ (args : PlayMusicArgs) d, okSingleText (playMusic args d).2 = true)
    ∧ (∀ (args : QueueArgs) d, okSingleText (addToQueue args d).2 = true)
    ∧ (∀ action dev d, okSingleText (playbackAction action dev d).2 = true)
    ∧ (∀ (args : CreatePlaylistArgs) d, okSingleText (createPlaylist args d) = true)
    ∧ (∀ lim d, okSingleText (getUserPlaylists lim d).2 = true)
    ∧ (∀ pid lim d, okSingleText (getPlaylistTracks pid lim d).2 = true)
    ∧ (∀ lim d, okSingleText (getRecentlyPlayed lim d).2 = true)
    ∧ (∀ aft lim d, okSingleText (getFollowedArtists aft lim d).2 = true)
    ∧ (∀ (args : TopItemsArgs) d, okSingleText (getUserTopItems args d).2 = true) := by
  refine ⟨?_, ?_, ?_, ?_, ?_, ?_, ?_, ?_, ?_, ?_, ?_, ?_, ?_⟩
  · intro args d
    rcases d with e | r <;> rfl
  · intro d
    rcases d with e | ct
    · rfl
    · rcases ct with _ | ⟨item, prog, playing⟩
      · rfl
      · rcases item with _ | item
        · rfl
        · simp only [getNowPlaying]
          split <;> rfl
  · intro args d
    simp only [addTracksToPlaylist]
    split
    · rfl
    · rcases d with e | u <;> rfl
  · intro args d
    simp only [removeTracksFromPlaylist]
    split
    · rfl
    · rcases d with e | u <;> rfl
  · intro args d
    simp only [playMusic]
    split
    · rfl
    · rcases d with e | u <;> rfl
  · intro args d
    simp only [addToQueue]
    split
    · rfl
    · rcases d with e | u <;> rfl
  · intro action dev d
    rcases d with e | u <;> rfl
  · intro args d
    rcases d with e | r <;> rfl
  · intro lim d
    rcases d with e | r
    · rfl
    · simp only [getUserPlaylists]
      split <;> rfl
  · intro pid lim d
    rcases d with e | r
    · rfl
    · simp only [getPlaylistTracks]
      split <;> rfl
  · intro lim d
    rcases d with e | r
    · rfl
    · simp only [getRecentlyPlayed]
      split <;> rfl
  · intro aft lim d
    rcases d with e | r
    · rfl
    · simp only [getFollowedArtists]
      split <;> rfl
  · intro args d
    rcases d with e | r
    · rfl
    · simp only [getUserTopItems]
      split <;> rfl

/-- C6: every list-style read returns its designated "none" message on an
empty result set and otherwise a rendering of a 1-based numbered list — the
header plus the per-item lines joined by newlines, one line per item, each
line prefixed with its 1-based index — and an entry whose track is missing
renders the "[Removed track]" placeholder line rather than being skipped. -/
theorem list_reads_empty_and_numbered :
    (∀ lim, (getUserPlaylists lim (.ok [])).2
        = .ok [⟨"text", "You don\x27t have any playlists on Spotify", false⟩])
    ∧ (∀ lim (x : PlaylistSummary) xs, (getUserPlaylists lim (.ok (x :: xs))).2
        = .ok [⟨"text", "# Your Spotify Playlists\n\n"
            ++ joinWith "\n" (jsMapIdx userPlaylistLine 0 (x :: xs)), false⟩])
    ∧ (∀ pid lim (resp : PlaylistItemsResponse), (resp.items.map List.length).getD 0 = 0 →
        (getPlaylistTracks pid lim (.ok resp)).2
          = .ok [⟨"text", "This playlist doesn\x27t have any tracks", false⟩])
    ∧ (∀ pid lim (x : TrackEntry) xs, (getPlaylistTracks pid lim (.ok ⟨some (x :: xs)⟩)).2
        = .ok [⟨"text", "# Tracks in Playlist\n\n"
            ++ joinWith "\n" (jsMapIdx trackEntryLine 0 (x :: xs)), false⟩])
    ∧ (∀ lim, (getRecentlyPlayed lim (.ok [])).2
        = .ok [⟨"text", "You don\x27t have any recently played tracks on Spotify", false⟩])
    ∧ (∀ lim (x : TrackEntry) xs, (getRecentlyPlayed lim (.ok (x :: xs))).2
        = .ok [⟨"text", "# Recently Played Tracks\n\n"
            ++ joinWith "\n" (jsMapIdx trackEntryLine 0 (x :: xs)), false⟩])
    ∧ (∀ aft lim, (getFollowedArtists aft lim (.ok [])).2
        = .ok [⟨"text", "User doesn\x27t follow any artists on Spotify", false⟩])
    ∧ (∀ aft lim (x : ArtistResult) xs, (getFollowedArtists aft lim (.ok (x :: xs))).2
        = .ok [⟨"text", "# Artists You Follow\n\n"
            ++ joinWith "\n" (jsMapIdx followedArtistLine 0 (x :: xs)), false⟩])
    ∧ (∀ (args : TopItemsArgs), (getUserTopItems args (.ok [])).2
        = .ok [⟨"text", "User doesn\x27t have any top " ++ args.type ++ " on Spotify", false⟩])
    ∧ (∀ (args : TopItemsArgs) (x : TopItem) xs, (getUserTopItems args (.ok (x :: xs))).2
        = .ok [⟨"text", "# Top " ++ args.type ++ "\n\n"
            ++ joinWith "\n" (jsMapIdx (topItemLine args.type) 0 (x :: xs)), false⟩])
    ∧ (∀ q ty lim off (results : SearchResults), searchFormatted ty results = "" →
        (searchSpotify ⟨q, ty, lim, off⟩ (.ok results)).2
          = [⟨"text", "No " ++ ty ++ " results found for \"" ++ q ++ "\"", false⟩])
    ∧ (∀ q lim off (x : TrackResult) xs albums playlists,
        (searchSpotify ⟨q, "track", lim, off⟩ (.ok ⟨some (x :: xs), albums, playlists⟩)).2
          = [⟨"text", "# Search results for \"" ++ q ++ "\" (type: " ++ "track" ++ ")\n\n"
              ++ joinWith "\n" (jsMapIdx searchTrackLine 0 (x :: xs)), false⟩])
    ∧ (∀ q lim off tracks (x : AlbumResult) xs playlists,
        (searchSpotify ⟨q, "album", lim, off⟩ (.ok ⟨tracks, some (x :: xs), playlists⟩)).2
          = [⟨"text", "# Search results for \"" ++ q ++ "\" (type: " ++ "album" ++ ")\n\n"
              ++ joinWith "\n" (jsMapIdx searchAlbumLine 0 (x :: xs)), false⟩])
    ∧ (∀ q lim off tracks albums (x : Option PlaylistResult) xs,
        (searchSpotify ⟨q, "playlist", lim, off⟩ (.ok ⟨tracks, albums, some (x :: xs)⟩)).2
          = [⟨"text", "# Search results for \"" ++ q ++ "\" (type: " ++ "playlist" ++ ")\n\n"
              ++ joinWith "\n" (jsMapIdx searchPlaylistLine 0 (x :: xs)), false⟩])
    ∧ (∀ (l : List TrackEntry), (jsMapIdx trackEntryLine 0 l).length = l.length)
    ∧ (∀ (l : List PlaylistSummary), (jsMapIdx userPlaylistLine 0 l).length = l.length)
    ∧ (∀ i (p : PlaylistSummary), ∃ b, userPlaylistLine i p = toString (i + 1) ++ ". " ++ b)
    ∧ (∀ i (a : ArtistResult), ∃ b, followedArtistLine i a = toString (i + 1) ++ ". " ++ b)
    ∧ (∀ ty i (t : TopItem), ∃ b, topItemLine ty i t = toString (i + 1) ++ ". " ++ b)
    ∧ (∀ i (e : TrackEntry), ∃ b, trackEntryLine i e = toString (i + 1) ++ ". " ++ b)
    ∧ (∀ i, trackEntryLine i ⟨none⟩ = toString (i + 1) ++ ". " ++ "[Removed track]")
    ∧ (∀ i (t : TrackResult), ∃ b, searchTrackLine i t = toString (i + 1) ++ ". " ++ b)
    ∧ (∀ i (a : AlbumResult), ∃ b, searchAlbumLine i a = toString (i + 1) ++ ". " ++ b)
    ∧ (∀ i (p : Option PlaylistResult),
        ∃ b, searchPlaylistLine i p = toString (i + 1) ++ ". " ++ b) := by
  refine ⟨fun lim => rfl, ?_, ?_, ?_, fun lim => rfl, ?_, fun aft lim => rfl, ?_,
    ?_, ?_, ?_, ?_, ?_, ?_, fun l => jsMapIdx_length _ _ _, fun l => jsMapIdx_length _ _ _,
    fun i p => ⟨_, rfl⟩, fun i a => ⟨_, rfl⟩, ?_, ?_, fun i => rfl,
    fun i t => ⟨_, rfl⟩, fun i a => ⟨_, rfl⟩, fun i p => ⟨_, rfl⟩⟩
  · intro lim x xs
    simp [getUserPlaylists]
  · intro pid lim resp h
    simp [getPlaylistTracks, h]
  · intro pid lim x xs
    simp [getPlaylistTracks]
  · intro lim x xs
    simp [getRecentlyPlayed]
  · intro aft lim x xs
    simp [getFollowedArtists]
  · intro args
    rfl
  · intro args x xs
    simp [getUserTopItems]
  · intro q ty lim off results h
    have h0 : (("" : String).length > 0) = False := by simp
    simp [searchSpotify, h, h0]
  · intro q lim off x xs albums playlists
    have hpos := joinWith_line_pos searchTrackLine searchTrackLine_length_pos x xs
    simp [searchSpotify, searchFormatted, hpos]
  · intro q lim off tracks x xs playlists
    have hpos := joinWith_line_pos searchAlbumLine searchAlbumLine_length_pos x xs
    simp [searchSpotify, searchFormatted, hpos]
  · intro q lim off tracks albums x xs
    have hpos := joinWith_line_pos searchPlaylistLine searchPlaylistLine_length_pos x xs
    simp [searchSpotify, searchFormatted, hpos]
  · intro ty i t
    unfold topItemLine
    split
    · exact ⟨_, rfl⟩
    · split
      · exact ⟨_, rfl⟩
      · exact ⟨_, rfl⟩
  · intro i e
    rcases e with ⟨_ | t⟩
    · exact ⟨_, rfl⟩
    · by_cases h : isTrack t = true
      · refine ⟨"\"" ++ t.name ++ "\" by " ++ joinWith ", " (t.artists.getD []) ++ " ("
          ++ formatDuration t.duration_ms ++ ") - ID: " ++ t.id, ?_⟩
        simp [trackEntryLine, h]
      · refine ⟨"Unknown item", ?_⟩
        simp [trackEntryLine, h]

/-- C6 witness: a missing items array yields the empty-playlist message, and
an empty track result set yields the no-results message. -/
theorem list_reads_empty_and_numbered_witness :
    (getPlaylistTracks "P" none (.ok ⟨none⟩)).2
      = .ok [⟨"text", "This playlist doesn\x27t have any tracks", false⟩]
    ∧ (searchSpotify ⟨"q", "track", none, none⟩ (.ok ⟨some [], none, none⟩)).2
      = [⟨"text", "No " ++ "track" ++ " results found for \"" ++ "q" ++ "\"", false⟩] :=
  ⟨list_reads_empty_and_numbered.2.2.1 "P" none ⟨none⟩ rfl,
   list_reads_empty_and_numbered.2.2.2.2.2.2.2.2.2.2.1 "q" "track" none none
     ⟨some [], none, none⟩ rfl⟩
